import Mathlib

/-
Verification of the `graceful-recovery` module (src/index.js) against its
natural-language specification.

The module is a snapshot lifecycle coordinator for a Node.js process: it
aggregates application state from registered producer callbacks and persists
it as a JSON "session record" on autosave ticks, shutdown signals and
uncaught exceptions, and reads the last record back at startup.

Shallow embedding notes:
* JSON documents are modelled by the inductive `Json` (integers stand in for
  JS numbers; textual serialization via `JSON.stringify` / `JSON.parse` is
  the platform's codec and is modelled at the AST level: a written file holds
  the serialized document).
* JS runtime values that can be thrown (the argument of
  `onUncaughtException` / the `error` parameter of `dump`) are modelled by
  `JsVal`; an object carries its own enumerable data properties, an optional
  `toJSON` result, and whether it is an `instanceof Error`.
* The coordinator instance (`this`) together with its observable environment
  (target file, pending `fs.writeFile` completions, invocation counters for
  producers / the exit-hook completion callback / `console.error` logging,
  and the process exit status) is the state `Sys`.
* Asynchrony: producers are invoked synchronously in the model; a dump's
  `fs.writeFile` completion is an explicitly scheduled pending event, so a
  dump is "in flight" from the moment `dump` runs until its `complete` event
  is processed.  External stimuli (autosave interval tick, shutdown signal,
  uncaught fault) and write completions form event traces processed by
  `step` / `run`.
-/

namespace GracefulRecovery

/-- A JSON document (the generic serialization format the session record is
round-tripped through).  JS numbers are modelled as integers. -/
inductive Json where
  | null
  | bool (b : Bool)
  | num (n : Int)
  | str (s : String)
  | arr (elems : List Json)
  | obj (fields : List (String × Json))

/-- A JS runtime value as far as the error-handling paths observe it: the
primitives, plus objects carrying their own data properties, an optional
`toJSON` method (modelled by the object it returns) and an `instanceof Error`
flag. -/
inductive JsVal where
  | undef
  | jsNull
  | bool (b : Bool)
  | num (n : Int)
  | str (s : String)
  | obj (props : List (String × Json)) (tojson : Option (List (String × Json))) (isErr : Bool)

/-- JS truthiness of a `JsVal` (`if(!error)` etc.). -/
def truthy : JsVal → Bool
  | .undef => false
  | .jsNull => false
  | .bool b => b
  | .num n => n != 0
  | .str s => s != ""
  | .obj _ _ _ => true

/-- `GracefulRecovery.parseError` (src/index.js lines 160-188): falsy values
become `undefined`; a value with a `toJSON` method is replaced by its
`toJSON()` result; an `Error` instance has its own property names copied
onto a plain object; anything else is returned as-is. -/
def parseError (error : JsVal) : JsVal :=
  if truthy error = false then .undef
  else
    match error with
    | .obj _ (some tj) _ => .obj tj none false
    | .obj props none true => .obj props none false
    | e => e

/-- Serialization of a `JsVal` by `JSON.stringify`: `undefined` is dropped
(`none`), an object with `toJSON` serializes via its `toJSON` result. -/
def jsToJson : JsVal → Option Json
  | .undef => none
  | .jsNull => some .null
  | .bool b => some (.bool b)
  | .num n => some (.num n)
  | .str s => some (.str s)
  | .obj _ (some tj) _ => some (.obj tj)
  | .obj props none _ => some (.obj props)

/-- The trigger reason recorded in `meta.reason`. -/
inductive Reason where
  | shutdown
  | autosave
  | uncaughtException
  deriving DecidableEq

def reasonToString : Reason → String
  | .shutdown => "shutdown"
  | .autosave => "autosave"
  | .uncaughtException => "uncaught-exception"

def reasonOfString (s : String) : Option Reason :=
  if s = "shutdown" then some .shutdown
  else if s = "autosave" then some .autosave
  else if s = "uncaught-exception" then some .uncaughtException
  else none

/-- The `meta` part of the session record built in `dump` (src/index.js
lines 107-112): timestamp, reason, and the (possibly `undefined`, i.e.
`none`) parsed error. -/
structure SessionMeta where
  «at» : Int
  reason : Reason
  error : Option Json

/-- The session record structure built in `dump` (src/index.js lines
107-114).  `state` is `none` exactly when `this.snapshot(reason)` returned
`undefined` (zero producers; unreachable from `dump` because of its guard). -/
structure SessionRecord where
  meta : SessionMeta
  state : Option Json

/-- JSON encoding of `meta` as `JSON.stringify` produces it: keys `at`,
`reason` in insertion order; the `error` key is dropped when its value is
`undefined`. -/
def encodeMeta (m : SessionMeta) : Json :=
  .obj ([("at", .num m.«at»), ("reason", .str (reasonToString m.reason))] ++
    (match m.error with
     | some e => [("error", e)]
     | none => []))

/-- JSON encoding of the whole record: key `meta` before `state`; a `state`
key holding `undefined` is dropped by `JSON.stringify`. -/
def encodeRecord (r : SessionRecord) : Json :=
  .obj ([("meta", encodeMeta r.meta)] ++
    (match r.state with
     | some st => [("state", st)]
     | none => []))

/-- Property lookup on a parsed JSON document (`session.meta` etc.). -/
def getField (doc : Json) (k : String) : Option Json :=
  match doc with
  | .obj fields => fields.lookup k
  | _ => none

/-- Field-for-field reading of a parsed session document back into a
`SessionRecord`, the way a recovered `session` object is consumed
(`session.meta.at`, `session.meta.reason`, `session.meta.error`,
`session.state`). -/
def decodeRecord (doc : Json) : Option SessionRecord := do
  let mdoc ← getField doc "meta"
  let atj ← getField mdoc "at"
  let atv ← match atj with
    | .num n => some n
    | _ => none
  let rj ← getField mdoc "reason"
  let rs ← match rj with
    | .str s => some s
    | _ => none
  let reason ← reasonOfString rs
  some { meta := { «at» := atv, reason := reason, error := getField mdoc "error" },
         state := getField doc "state" }

/-- A registered snapshot producer.  A JS producer is an arbitrary (possibly
stateful) closure; the model passes it the global invocation counter (the
number of producer invocations made so far) so that its behaviour may vary
across calls, and the trigger reason.  It either returns a JSON-representable
value or raises a `JsVal`. -/
abbrev Producer := Nat → Reason → Except JsVal Json

/-- The sequential producer loop of `snapshot` (src/index.js lines 86-94):
invoke each handler in registration order, awaiting each before the next;
a raise aborts the loop and propagates.  Returns the outcome together with
the advanced invocation counter. -/
def runAll : List Producer → Nat → Reason → Except JsVal (List Json) × Nat
  | [], c, _ => (.ok [], c)
  | h :: t, c, reason =>
    match h c reason with
    | .error e => (.error e, c + 1)
    | .ok v =>
      match runAll t (c + 1) reason with
      | (.error e, c') => (.error e, c')
      | (.ok vs, c') => (.ok (v :: vs), c')

/-- `GracefulRecovery.snapshot` (src/index.js lines 81-95): zero handlers
yields `undefined` (`none`); exactly one handler yields its result directly;
two or more yield the array of results collected sequentially in
registration order.  Producer faults propagate uncaught. -/
def snapshot (handlers : List Producer) (c : Nat) (reason : Reason) :
    Except JsVal (Option Json) × Nat :=
  match handlers with
  | [] => (.ok none, c)
  | [h] =>
    (match h c reason with
     | .error e => (.error e, c + 1)
     | .ok v => (.ok (some v), c + 1))
  | hs =>
    (match runAll hs c reason with
     | (.error e, c') => (.error e, c')
     | (.ok vs, c') => (.ok (some (.arr vs)), c'))

/-- The configuration object (src/index.js lines 8-21).  `autosave` is
`none` when falsy/non-numeric (interval disabled). -/
structure Config where
  catchExceptions : Bool
  exitExceptions : Bool
  autosave : Option Nat
  path : String

/-- The `defaults` object of src/index.js. -/
def defaults : Config :=
  { catchExceptions := true
    exitExceptions := true
    autosave := some (5 * 60 * 1000)
    path := "session.json" }

/-- The state of the file at `config.path` as the recovery path can find
it: missing, unreadable (e.g. permission error), present but malformed, or
holding a parseable serialized document. -/
inductive FileState where
  | absent
  | unreadable
  | malformed
  | content (doc : Json)

/-- A scheduled `fs.writeFile` completion: the serialized document the write
carries, whether the closed-over `callback` (the exit-hook completion
callback passed to `willShutdown`) is non-null, and whether an
`onUncaughtException` invocation is awaiting the dump's deferred promise. -/
structure PendingWrite where
  doc : Json
  hasCb : Bool
  excAwaits : Bool

/-- The coordinator instance plus its observable environment.  Fields named
as in the source where they exist there (`snapshotHandlers`, `isDumping`,
`hasDumpedForShutdownAlready`, `config`); the rest are the model's
observations: `calls` counts producer invocations, `writesIssued` counts
`fs.writeFile` calls, `shutdownCbRuns` counts invocations of the exit-hook
completion callback, `writeErrorsLogged` counts the `console.error('Was
unable to store state', err)` line, `faultsLogged` counts the
`console.error(err)` line of `onUncaughtException`, `exited`/`exitCode`
record `process.exit(code)` / `process.exitCode = code`, `now` is the value
`+new Date` yields, and `file` is the file at `config.path`. -/
structure Sys where
  config : Config
  snapshotHandlers : List Producer
  isDumping : Bool
  hasDumpedForShutdownAlready : Bool
  calls : Nat
  now : Int
  file : FileState
  pendingWrites : List PendingWrite
  writesIssued : Nat
  shutdownCbRuns : Nat
  writeErrorsLogged : Nat
  faultsLogged : Nat
  exited : Option Nat
  exitCode : Option Nat

/-- A freshly constructed instance (src/index.js constructor): no handlers,
both flags unset (`undefined` is falsy), nothing pending, nothing observed
yet. -/
def mkSys (config : Config) (now : Int) (file : FileState) : Sys :=
  { config := config
    snapshotHandlers := []
    isDumping := false
    hasDumpedForShutdownAlready := false
    calls := 0
    now := now
    file := file
    pendingWrites := []
    writesIssued := 0
    shutdownCbRuns := 0
    writeErrorsLogged := 0
    faultsLogged := 0
    exited := none
    exitCode := none }

/-- `GracefulRecovery.registerSnapshot` (src/index.js lines 77-79): append
the producer to the ordered list. -/
def registerSnapshot (s : Sys) (callback : Producer) : Sys :=
  { s with snapshotHandlers := s.snapshotHandlers ++ [callback] }

/-- How a `dump` invocation returns to its caller: `returnedFalse` is the
early `return false` on zero handlers, `threw` means the async function's
promise rejected because a producer raised, `writeIssued` means
`fs.writeFile` was started and the deferred promise is pending. -/
inductive DumpOutcome where
  | returnedFalse
  | threw
  | writeIssued
  deriving DecidableEq

/-- `GracefulRecovery.dump` (src/index.js lines 98-147) up to the point it
returns to its caller.  Note the source's single-flight guard is the empty
statement `if(this.isDumping);` — it has no effect, faithfully modelled by
no branch here.  `isDumping` is set before producers run; the write
completion is scheduled as a `PendingWrite` (the `fs.writeFile` callback is
modelled by `completeWrite`). -/
def dump (s : Sys) (cb : Bool) (excAwaits : Bool) (reason : Reason) (error : JsVal) :
    Sys × DumpOutcome :=
  if s.snapshotHandlers.isEmpty then (s, .returnedFalse)
  else
    let s₁ := { s with isDumping := true }
    match snapshot s₁.snapshotHandlers s₁.calls reason with
    | (.error _, c') => ({ s₁ with calls := c' }, .threw)
    | (.ok st, c') =>
      let record : SessionRecord :=
        { meta := { «at» := s₁.now, reason := reason, error := jsToJson (parseError error) }
          state := st }
      ({ s₁ with
          calls := c'
          writesIssued := s₁.writesIssued + 1
          pendingWrites := s₁.pendingWrites ++
            [{ doc := encodeRecord record, hasCb := cb, excAwaits := excAwaits }] },
        .writeIssued)

/-- `process.exit(1)` when `config.exitExceptions`, else
`process.exitCode = 1` (src/index.js lines 73-74). -/
def applyExitPolicy (s : Sys) : Sys :=
  if s.config.exitExceptions then { s with exited := some 1 }
  else { s with exitCode := some 1 }

/-- `GracefulRecovery.willShutdown` (src/index.js lines 52-58): no-op when
the shutdown latch is set or a dump is in flight; otherwise set the latch
*before* dumping with reason `shutdown`, passing the exit-hook completion
callback along. -/
def willShutdown (s : Sys) : Sys :=
  if s.hasDumpedForShutdownAlready || s.isDumping then s
  else
    let s₁ := { s with hasDumpedForShutdownAlready := true }
    (dump s₁ true false .shutdown .undef).1

/-- `GracefulRecovery.onAutosave` (src/index.js lines 60-62): dump with
reason `autosave`, null callback, result promise discarded. -/
def onAutosave (s : Sys) : Sys :=
  (dump s false false .autosave .undef).1

/-- `GracefulRecovery.onUncaughtException` (src/index.js lines 64-75): log
the fault; if no dump is in flight, set the latch and `await` a dump with
reason `uncaught-exception` carrying the fault.  The exit policy runs after
the `await`: immediately when the dump returned `false` (zero handlers),
never when the dump's promise rejected (a producer raised — the rejection
propagates out of the handler before line 73), and at the write completion
when a write was issued (recorded on the pending write as `excAwaits`).
When a dump is in flight the dump is skipped and the exit policy applies
immediately. -/
def onUncaughtException (s : Sys) (err : JsVal) : Sys :=
  let s₀ := { s with faultsLogged := s.faultsLogged + 1 }
  if s₀.isDumping = false then
    let s₁ := { s₀ with hasDumpedForShutdownAlready := true }
    let d := dump s₁ false true .uncaughtException err
    if d.2 = .returnedFalse then applyExitPolicy d.1 else d.1
  else applyExitPolicy s₀

/-- The `fs.writeFile` completion callback (src/index.js lines 132-143),
fired for the oldest pending write, `ok` telling whether the write
succeeded.  On failure the error is logged and the deferred promise
rejects; in both cases the exit-hook callback (if non-null) is invoked and
`isDumping` is cleared.  When an `onUncaughtException` was awaiting the
promise, its continuation (the exit policy) runs only on success — on
failure the `await` throws and the policy is skipped. -/
def completeWrite (s : Sys) (ok : Bool) : Sys :=
  match s.pendingWrites with
  | [] => s
  | w :: rest =>
    let s₁ := { s with pendingWrites := rest }
    let s₂ :=
      if ok then { s₁ with file := .content w.doc }
      else { s₁ with writeErrorsLogged := s₁.writeErrorsLogged + 1 }
    let s₃ := if w.hasCb then { s₂ with shutdownCbRuns := s₂.shutdownCbRuns + 1 } else s₂
    let s₄ := { s₃ with isDumping := false }
    if w.excAwaits && ok then applyExitPolicy s₄ else s₄

/-- What `require(path.resolve(this.config.path))` does on each file state:
return the parsed document or throw (module not found / permission error /
JSON parse error). -/
def requireSession : FileState → Except String Json
  | .content doc => .ok doc
  | .absent => .error "MODULE_NOT_FOUND"
  | .unreadable => .error "EACCES"
  | .malformed => .error "SyntaxError: Unexpected token"

/-- `GracefulRecovery.recovery` (src/index.js lines 150-158): the
`try { session = require(...) } catch(e) { session = undefined }` body.  The
result is the resolution value of the returned promise; the promise never
rejects, so the outer `Except` is the (never-used) failure channel. -/
def recovery (f : FileState) : Except String (Option Json) :=
  let session : Option Json :=
    match requireSession f with
    | .ok doc => some doc
    | .error _ => none
  .ok session

/-- `recovery` as an operation on the instance: it reads `this.config.path`
(the file) and mutates nothing. -/
def recoverySys (s : Sys) : Sys × Except String (Option Json) :=
  (s, recovery s.file)

/-- External events driving the coordinator: an autosave interval tick, a
termination signal delivered by the exit-hook facility, an uncaught fault,
and the completion (success or failure) of the oldest in-flight
`fs.writeFile`. -/
inductive Ev where
  | tick
  | sigShutdown
  | fault (err : JsVal)
  | complete (ok : Bool)

/-- One event step.  After `process.exit` nothing runs.  Tick events exist
only when the constructor installed the interval (`config.autosave` truthy
numeric); fault events reach `onUncaughtException` only when
`config.catchExceptions` registered it. -/
def step (s : Sys) (e : Ev) : Sys :=
  if s.exited.isSome then s
  else
    match e with
    | .tick =>
      match s.config.autosave with
      | some n => if n ≠ 0 then onAutosave s else s
      | none => s
    | .sigShutdown => willShutdown s
    | .fault err => if s.config.catchExceptions then onUncaughtException s err else s
    | .complete ok => completeWrite s ok

/-- Run a trace of events. -/
def run (s : Sys) : List Ev → Sys
  | [] => s
  | e :: es => run (step s e) es


/-- `error.toJSON` truthiness test of `parseError`'s first branch. -/
def hasToJson : JsVal → Bool
  | .obj _ (some _) _ => true
  | _ => false

/-- The `error instanceof Error` test of `parseError`'s second branch. -/
def isErrorInstance : JsVal → Bool
  | .obj _ _ b => b
  | _ => false

/-- The `session.meta.error` a reader of a written document observes. -/
def metaErrorOf (doc : Json) : Option Json :=
  (getField doc "meta").bind (fun m => getField m "error")

/-- The `session.meta.reason` a reader of a written document observes. -/
def metaReasonOf (doc : Json) : Option Json :=
  (getField doc "meta").bind (fun m => getField m "reason")

/-- A producer returning a constant object (the spec's `{"foo":"bar"}`
scenario), for concrete runs. -/
def pConst : Producer := fun _ _ => .ok (.obj [("foo", .str "bar")])

/-- A default-configured instance with `pConst` registered. -/
def base : Sys := registerSnapshot (mkSys defaults 1000 .absent) pConst

/-- A stateful producer that raises on its first invocation and succeeds
afterwards. -/
def pFlaky : Producer := fun c _ => if c = 0 then .error (.str "boom") else .ok (.num 1)

/-- A default-configured instance with `pFlaky` registered. -/
def fbase : Sys := registerSnapshot (mkSys defaults 1000 .absent) pFlaky

/-- A producer that always raises. -/
def pBad : Producer := fun _ _ => .error (.str "boom")

/-- A default-configured instance with `pBad` registered. -/
def bbase : Sys := registerSnapshot (mkSys defaults 1000 .absent) pBad

/-- A producer returning `1` (the spec's two-producer scenario). -/
def pOne : Producer := fun _ _ => .ok (.num 1)

/-- A producer returning `"x"` (the spec's two-producer scenario). -/
def pTwo : Producer := fun _ _ => .ok (.str "x")

/-- A default-configured instance with `pOne` then `pTwo` registered, in
that order. -/
def base2 : Sys := registerSnapshot (registerSnapshot (mkSys defaults 1000 .absent) pOne) pTwo

/-- The record written when `throw null` reaches the fault handler: reason
is `uncaught-exception` yet `meta.error` is absent. -/
def recNullFault : SessionRecord :=
  { meta := { «at» := 1000, reason := .uncaughtException, error := none }
    state := some (.obj [("foo", .str "bar")]) }

/-- The Error-like fault value used in concrete runs: own properties
`message` and `stack`, no `toJSON`, `instanceof Error`. -/
def errObj : JsVal :=
  .obj [("message", .str "oops"), ("stack", .str "Error: oops")] none true

/-- `dump` with zero registered producers is the identity, returning `false`
(src/index.js line 100). -/
theorem dump_nil (s : Sys) (cb aw : Bool) (r : Reason) (err : JsVal)
    (h : s.snapshotHandlers.isEmpty = true) :
    dump s cb aw r err = (s, .returnedFalse) := by
  unfold dump
  simp [h]

/-- Characterization of `dump` when the aggregation succeeds: `isDumping` is
set, the invocation counter advances, and `fs.writeFile` is issued with the
serialized record. -/
theorem dump_writes (s : Sys) (cb aw : Bool) (r : Reason) (err : JsVal)
    (st : Option Json) (c' : Nat)
    (hne : s.snapshotHandlers.isEmpty = false)
    (hsnap : snapshot s.snapshotHandlers s.calls r = (.ok st, c')) :
    dump s cb aw r err =
      ({ s with isDumping := true
                calls := c'
                writesIssued := s.writesIssued + 1
                pendingWrites := s.pendingWrites ++
                  [{ doc := encodeRecord
                       { meta := { «at» := s.now, reason := r, error := jsToJson (parseError err) }
                         state := st }
                     hasCb := cb
                     excAwaits := aw }] },
        .writeIssued) := by
  unfold dump
  simp [hne, hsnap]

/-- Characterization of `dump` when a producer raises: `isDumping` stays
set, no write is issued, nothing else changes, and the async function's
promise rejects. -/
theorem dump_threw (s : Sys) (cb aw : Bool) (r : Reason) (err : JsVal)
    (e : JsVal) (c' : Nat)
    (hne : s.snapshotHandlers.isEmpty = false)
    (hsnap : snapshot s.snapshotHandlers s.calls r = (.error e, c')) :
    dump s cb aw r err = ({ s with isDumping := true, calls := c' }, .threw) := by
  unfold dump
  simp [hne, hsnap]

/-- Fields `dump` never touches, and the fact that any pending write it adds
carries exactly the callback it was passed. -/
theorem dump_frame (s : Sys) (cb aw : Bool) (r : Reason) (err : JsVal) :
    (dump s cb aw r err).1.hasDumpedForShutdownAlready = s.hasDumpedForShutdownAlready ∧
    (dump s cb aw r err).1.shutdownCbRuns = s.shutdownCbRuns ∧
    (dump s cb aw r err).1.exited = s.exited ∧
    (dump s cb aw r err).1.exitCode = s.exitCode ∧
    (dump s cb aw r err).1.config = s.config ∧
    (∀ w ∈ (dump s cb aw r err).1.pendingWrites, w ∈ s.pendingWrites ∨ w.hasCb = cb) := by
  unfold dump
  split
  · exact ⟨rfl, rfl, rfl, rfl, rfl, fun w hw => Or.inl hw⟩
  · dsimp only
    split
    · exact ⟨rfl, rfl, rfl, rfl, rfl, fun w hw => Or.inl hw⟩
    · refine ⟨rfl, rfl, rfl, rfl, rfl, fun w hw => ?_⟩
      rcases List.mem_append.mp hw with h | h
      · exact Or.inl h
      · rw [List.mem_singleton.mp h]
        exact Or.inr rfl

/-- `applyExitPolicy` only touches the exit observations. -/
theorem applyExitPolicy_frame (s : Sys) :
    (applyExitPolicy s).hasDumpedForShutdownAlready = s.hasDumpedForShutdownAlready ∧
    (applyExitPolicy s).shutdownCbRuns = s.shutdownCbRuns ∧
    (applyExitPolicy s).pendingWrites = s.pendingWrites ∧
    (applyExitPolicy s).isDumping = s.isDumping ∧
    (applyExitPolicy s).writesIssued = s.writesIssued ∧
    (applyExitPolicy s).calls = s.calls ∧
    (applyExitPolicy s).file = s.file ∧
    (applyExitPolicy s).writeErrorsLogged = s.writeErrorsLogged ∧
    (applyExitPolicy s).snapshotHandlers = s.snapshotHandlers ∧
    (applyExitPolicy s).config = s.config := by
  unfold applyExitPolicy
  split <;> exact ⟨rfl, rfl, rfl, rfl, rfl, rfl, rfl, rfl, rfl, rfl⟩

/-- Frame of the conditional exit policy at the tail of `completeWrite` and
`onUncaughtException`. -/
theorem exitIf_frame (c : Bool) (x : Sys) :
    (if c then applyExitPolicy x else x).hasDumpedForShutdownAlready =
      x.hasDumpedForShutdownAlready ∧
    (if c then applyExitPolicy x else x).shutdownCbRuns = x.shutdownCbRuns ∧
    (if c then applyExitPolicy x else x).pendingWrites = x.pendingWrites ∧
    (if c then applyExitPolicy x else x).isDumping = x.isDumping ∧
    (if c then applyExitPolicy x else x).writesIssued = x.writesIssued ∧
    (if c then applyExitPolicy x else x).calls = x.calls ∧
    (if c then applyExitPolicy x else x).file = x.file ∧
    (if c then applyExitPolicy x else x).writeErrorsLogged = x.writeErrorsLogged := by
  cases c
  · exact ⟨rfl, rfl, rfl, rfl, rfl, rfl, rfl, rfl⟩
  · obtain ⟨a, b, c, d, e, f, g, h, _, _⟩ := applyExitPolicy_frame x
    simpa using ⟨a, b, c, d, e, f, g, h⟩

/-- `completeWrite` when no write is pending (no `fs.writeFile` callback can
fire): nothing happens. -/
theorem completeWrite_nil (s : Sys) (ok : Bool) (h : s.pendingWrites = []) :
    completeWrite s ok = s := by
  unfold completeWrite
  rw [h]

/-- Full characterization of `completeWrite` on the oldest pending write. -/
theorem completeWrite_cons (s : Sys) (ok : Bool) (w : PendingWrite) (rest : List PendingWrite)
    (heq : s.pendingWrites = w :: rest) :
    completeWrite s ok =
      (if w.excAwaits && ok then
        applyExitPolicy
          { s with
              pendingWrites := rest
              file := if ok then .content w.doc else s.file
              writeErrorsLogged := if ok then s.writeErrorsLogged else s.writeErrorsLogged + 1
              shutdownCbRuns := if w.hasCb then s.shutdownCbRuns + 1 else s.shutdownCbRuns
              isDumping := false }
      else
        { s with
            pendingWrites := rest
            file := if ok then .content w.doc else s.file
            writeErrorsLogged := if ok then s.writeErrorsLogged else s.writeErrorsLogged + 1
            shutdownCbRuns := if w.hasCb then s.shutdownCbRuns + 1 else s.shutdownCbRuns
            isDumping := false }) := by
  unfold completeWrite
  rw [heq]
  cases hok : ok <;> cases hcb : w.hasCb <;> simp [hok, hcb]


theorem willShutdown_noop (s : Sys)
    (h : s.hasDumpedForShutdownAlready = true ∨ s.isDumping = true) :
    willShutdown s = s := by
  unfold willShutdown
  rcases h with h | h <;> simp [h]

theorem willShutdown_dumps (s : Sys)
    (h1 : s.hasDumpedForShutdownAlready = false) (h2 : s.isDumping = false) :
    willShutdown s =
      (dump { s with hasDumpedForShutdownAlready := true } true false .shutdown .undef).1 := by
  unfold willShutdown
  simp [h1, h2]

theorem onUncaughtException_inflight (s : Sys) (err : JsVal) (h : s.isDumping = true) :
    onUncaughtException s err = applyExitPolicy { s with faultsLogged := s.faultsLogged + 1 } := by
  unfold onUncaughtException
  simp [h]

theorem onUncaughtException_dumps (s : Sys) (err : JsVal) (h : s.isDumping = false) :
    onUncaughtException s err =
      (if (dump { s with faultsLogged := s.faultsLogged + 1, hasDumpedForShutdownAlready := true }
            false true .uncaughtException err).2 = .returnedFalse then
        applyExitPolicy
          (dump { s with faultsLogged := s.faultsLogged + 1, hasDumpedForShutdownAlready := true }
            false true .uncaughtException err).1
      else
        (dump { s with faultsLogged := s.faultsLogged + 1, hasDumpedForShutdownAlready := true }
          false true .uncaughtException err).1) := by
  unfold onUncaughtException
  simp [h]

theorem step_exited (s : Sys) (e : Ev) (n : Nat) (h : s.exited = some n) : step s e = s := by
  unfold step
  simp [h]

theorem step_tick (s : Sys) (n : Nat) (hx : s.exited = none)
    (ha : s.config.autosave = some n) (hn : n ≠ 0) : step s .tick = onAutosave s := by
  unfold step
  simp [hx, ha, hn]

theorem step_sig (s : Sys) (hx : s.exited = none) : step s .sigShutdown = willShutdown s := by
  unfold step
  simp [hx]

theorem step_fault (s : Sys) (err : JsVal) (hx : s.exited = none)
    (hc : s.config.catchExceptions = true) : step s (.fault err) = onUncaughtException s err := by
  unfold step
  simp [hx, hc]

theorem step_complete (s : Sys) (ok : Bool) (hx : s.exited = none) :
    step s (.complete ok) = completeWrite s ok := by
  unfold step
  simp [hx]



theorem completeWrite_inv (s : Sys) (ok : Bool)
    (h2 : ∀ w ∈ s.pendingWrites, w.hasCb = false) :
    (completeWrite s ok).hasDumpedForShutdownAlready = s.hasDumpedForShutdownAlready ∧
    (∀ w ∈ (completeWrite s ok).pendingWrites, w.hasCb = false) ∧
    (completeWrite s ok).shutdownCbRuns = s.shutdownCbRuns := by
  cases hp : s.pendingWrites with
  | nil => rw [completeWrite_nil s ok hp]; exact ⟨rfl, h2, rfl⟩
  | cons w rest =>
    have hw : w.hasCb = false := h2 w (hp ▸ List.mem_cons_self w rest)
    have hrest : ∀ x ∈ rest, x.hasCb = false :=
      fun x hx => h2 x (hp ▸ List.mem_cons_of_mem w hx)
    rw [completeWrite_cons s ok w rest hp]
    obtain ⟨a, b, c, _⟩ := exitIf_frame (w.excAwaits && ok)
      { s with
          pendingWrites := rest
          file := if ok then .content w.doc else s.file
          writeErrorsLogged := if ok then s.writeErrorsLogged else s.writeErrorsLogged + 1
          shutdownCbRuns := if w.hasCb then s.shutdownCbRuns + 1 else s.shutdownCbRuns
          isDumping := false }
    refine ⟨a, fun x hx => hrest x (by rw [c] at hx; exact hx), ?_⟩
    rw [b]
    simp [hw]

theorem dump_inv (s : Sys) (aw : Bool) (r : Reason) (err : JsVal)
    (h1 : s.hasDumpedForShutdownAlready = true)
    (h2 : ∀ w ∈ s.pendingWrites, w.hasCb = false) :
    (dump s false aw r err).1.hasDumpedForShutdownAlready = true ∧
    (∀ w ∈ (dump s false aw r err).1.pendingWrites, w.hasCb = false) ∧
    (dump s false aw r err).1.shutdownCbRuns = s.shutdownCbRuns := by
  obtain ⟨a, b, _, _, _, f⟩ := dump_frame s false aw r err
  exact ⟨a.trans h1, fun w hw => (f w hw).elim (h2 w) id, b⟩

theorem step_inv (s : Sys) (e : Ev)
    (h1 : s.hasDumpedForShutdownAlready = true)
    (h2 : ∀ w ∈ s.pendingWrites, w.hasCb = false) :
    (step s e).hasDumpedForShutdownAlready = true ∧
    (∀ w ∈ (step s e).pendingWrites, w.hasCb = false) ∧
    (step s e).shutdownCbRuns = s.shutdownCbRuns := by
  unfold step
  split
  · exact ⟨h1, h2, rfl⟩
  cases e with
  | tick =>
    dsimp only
    split
    · split
      · exact dump_inv s false .autosave .undef h1 h2
      · exact ⟨h1, h2, rfl⟩
    · exact ⟨h1, h2, rfl⟩
  | sigShutdown =>
    dsimp only
    rw [willShutdown_noop s (Or.inl h1)]
    exact ⟨h1, h2, rfl⟩
  | fault err =>
    dsimp only
    split
    · cases hd : s.isDumping with
      | true =>
        rw [onUncaughtException_inflight s err hd]
        obtain ⟨a, b, c, _⟩ :=
          applyExitPolicy_frame { s with faultsLogged := s.faultsLogged + 1 }
        exact ⟨a.trans h1, fun w hw => h2 w (by rw [c] at hw; exact hw), b⟩
      | false =>
        rw [onUncaughtException_dumps s err hd]
        have base := dump_inv
          { s with faultsLogged := s.faultsLogged + 1, hasDumpedForShutdownAlready := true }
          true .uncaughtException err rfl h2
        split
        · obtain ⟨a, b, c, _⟩ := applyExitPolicy_frame
            (dump { s with faultsLogged := s.faultsLogged + 1, hasDumpedForShutdownAlready := true }
              false true .uncaughtException err).1
          exact ⟨a.trans base.1, fun w hw => base.2.1 w (by rw [c] at hw; exact hw),
            b.trans base.2.2⟩
        · exact base
    · exact ⟨h1, h2, rfl⟩
  | complete ok =>
    dsimp only
    obtain ⟨a, b, c⟩ := completeWrite_inv s ok h2
    exact ⟨a.trans h1, b, c⟩



theorem run_inv (es : List Ev) (s : Sys)
    (h1 : s.hasDumpedForShutdownAlready = true)
    (h2 : ∀ w ∈ s.pendingWrites, w.hasCb = false) :
    (run s es).hasDumpedForShutdownAlready = true ∧
    (∀ w ∈ (run s es).pendingWrites, w.hasCb = false) ∧
    (run s es).shutdownCbRuns = s.shutdownCbRuns := by
  induction es generalizing s with
  | nil => exact ⟨h1, h2, rfl⟩
  | cons e es ih =>
    obtain ⟨a, b, c⟩ := step_inv s e h1 h2
    obtain ⟨a', b', c'⟩ := ih (step s e) a b
    exact ⟨a', b', c'.trans c⟩

theorem completeWrite_latch (s : Sys) (ok : Bool) :
    (completeWrite s ok).hasDumpedForShutdownAlready = s.hasDumpedForShutdownAlready := by
  cases hp : s.pendingWrites with
  | nil => rw [completeWrite_nil s ok hp]
  | cons w rest =>
    rw [completeWrite_cons s ok w rest hp]
    exact (exitIf_frame _ _).1

theorem step_latch_mono (s : Sys) (e : Ev) (h1 : s.hasDumpedForShutdownAlready = true) :
    (step s e).hasDumpedForShutdownAlready = true := by
  unfold step
  split
  · exact h1
  cases e with
  | tick =>
    dsimp only
    split
    · split
      · exact ((dump_frame s false false .autosave .undef).1).trans h1
      · exact h1
    · exact h1
  | sigShutdown =>
    dsimp only
    rw [willShutdown_noop s (Or.inl h1)]
    exact h1
  | fault err =>
    dsimp only
    split
    · cases hd : s.isDumping with
      | true =>
        rw [onUncaughtException_inflight s err hd]
        exact ((applyExitPolicy_frame _).1).trans h1
      | false =>
        rw [onUncaughtException_dumps s err hd]
        split
        · exact ((applyExitPolicy_frame _).1).trans
            (((dump_frame _ false true .uncaughtException err).1).trans rfl)
        · exact ((dump_frame _ false true .uncaughtException err).1).trans rfl
    · exact h1
  | complete ok =>
    dsimp only
    exact (completeWrite_latch s ok).trans h1

theorem run_latch_mono (es : List Ev) (s : Sys)
    (h1 : s.hasDumpedForShutdownAlready = true) :
    (run s es).hasDumpedForShutdownAlready = true := by
  induction es generalizing s with
  | nil => exact h1
  | cons e es ih => exact ih (step s e) (step_latch_mono s e h1)

theorem step_sig_noop (s : Sys) (h1 : s.hasDumpedForShutdownAlready = true) :
    step s .sigShutdown = s := by
  unfold step
  split
  · rfl
  · dsimp only
    exact willShutdown_noop s (Or.inl h1)



theorem runAll_spec (hs : List Producer) (vs : List Json) (c : Nat) (r : Reason)
    (hlen : vs.length = hs.length)
    (hok : ∀ i (hi : i < hs.length) (hi' : i < vs.length), hs[i] (c + i) r = .ok vs[i]) :
    runAll hs c r = (.ok vs, c + hs.length) := by
  induction hs generalizing vs c with
  | nil =>
    cases vs with
    | nil => simp [runAll]
    | cons v vt => simp at hlen
  | cons h t ih =>
    cases vs with
    | nil => simp at hlen
    | cons v vt =>
      have h0 := hok 0 (by simp) (by simp)
      simp only [List.getElem_cons_zero, Nat.add_zero] at h0
      have htail := ih vt (c + 1) (by simpa using hlen) (fun i hi hi' => by
        have := hok (i + 1) (by simpa using hi) (by simpa using hi')
        simpa [Nat.add_assoc, Nat.add_comm 1 i] using this)
      rw [runAll, h0, htail]
      simp [Nat.add_assoc, Nat.add_comm 1 t.length]

theorem decode_encode (r : SessionRecord) : decodeRecord (encodeRecord r) = some r := by
  obtain ⟨⟨a, rs, e⟩, st⟩ := r
  cases e <;> cases st <;> cases rs <;> rfl



theorem snapshot_single (h : Producer) (c : Nat) (r : Reason) (v : Json)
    (hok : h c r = .ok v) : snapshot [h] c r = (.ok (some v), c + 1) := by
  simp [snapshot, hok]

theorem snapshot_multi (a b : Producer) (t : List Producer) (c c' : Nat) (r : Reason)
    (vs : List Json) (hrun : runAll (a :: b :: t) c r = (.ok vs, c')) :
    snapshot (a :: b :: t) c r = (.ok (some (.arr vs)), c') := by
  simp [snapshot, hrun]

theorem dump_isDumping_mono (s : Sys) (cb aw : Bool) (r : Reason) (err : JsVal)
    (h : s.isDumping = true) : (dump s cb aw r err).1.isDumping = true := by
  unfold dump
  split
  · exact h
  · dsimp only
    split <;> rfl

theorem dump_new_doc (s : Sys) (cb aw : Bool) (r : Reason) (err : JsVal) :
    ∀ w ∈ (dump s cb aw r err).1.pendingWrites, w ∈ s.pendingWrites ∨
      ∃ st, w.doc = encodeRecord
        { meta := { «at» := s.now, reason := r, error := jsToJson (parseError err) }
          state := st } := by
  unfold dump
  split
  · exact fun w hw => Or.inl hw
  · dsimp only
    split
    · exact fun w hw => Or.inl hw
    · intro w hw
      rcases List.mem_append.mp hw with h | h
      · exact Or.inl h
      · rw [List.mem_singleton.mp h]
        exact Or.inr ⟨_, rfl⟩

theorem metaErrorOf_encode (r : SessionRecord) :
    metaErrorOf (encodeRecord r) = r.meta.error := by
  obtain ⟨⟨a, rs, e⟩, st⟩ := r
  cases e <;> cases st <;> rfl

theorem metaReasonOf_encode (r : SessionRecord) :
    metaReasonOf (encodeRecord r) = some (.str (reasonToString r.meta.reason)) := by
  obtain ⟨⟨a, rs, e⟩, st⟩ := r
  cases e <;> cases st <;> rfl



/-- Claim C1, evaluated at its failing input.  The claim states that an
autosave tick firing while a dump is already in flight performs no
additional write and invokes no producer.  The code's single-flight guard
is the empty statement `if(this.isDumping);` (src/index.js line 103), so
after a first tick leaves a dump in flight (`isDumping` true, its write
still pending), a second tick nevertheless runs a full second dump: the
producer is invoked again and a second `fs.writeFile` is issued, leaving
two dumps in flight at once. -/
theorem c1_single_flight_violated :
    (step base .tick).isDumping = true ∧
    (step base .tick).pendingWrites.length = 1 ∧
    (step base .tick).writesIssued = 1 ∧
    (step base .tick).calls = 1 ∧
    (step (step base .tick) .tick).writesIssued = 2 ∧
    (step (step base .tick) .tick).calls = 2 ∧
    (step (step base .tick) .tick).pendingWrites.length = 2 :=
  ⟨rfl, rfl, rfl, rfl, rfl, rfl, rfl⟩

/-- Claim C4 refuted at a concrete input: one registered producer that
always raises, shutdown signal delivered.  The producer fault propagates
out of the dump before `fs.writeFile` is reached, so no write is pending,
nothing has been logged by the coordinator, the exit-hook completion
callback has not run, the shutdown latch is consumed with `isDumping`
stuck, and a repeated shutdown signal is an exact no-op — no retry can
ever invoke the callback, contradicting "the termination completion
callback is eventually invoked". -/
theorem c4_counterexample :
    (step bbase .sigShutdown).pendingWrites = [] ∧
    (step bbase .sigShutdown).writesIssued = 0 ∧
    (step bbase .sigShutdown).shutdownCbRuns = 0 ∧
    (step bbase .sigShutdown).faultsLogged = 0 ∧
    (step bbase .sigShutdown).writeErrorsLogged = 0 ∧
    (step bbase .sigShutdown).hasDumpedForShutdownAlready = true ∧
    (step bbase .sigShutdown).isDumping = true ∧
    step (step bbase .sigShutdown) .sigShutdown = step bbase .sigShutdown :=
  ⟨rfl, rfl, rfl, rfl, rfl, rfl, rfl, rfl⟩

/-- Claim C5 refuted at a concrete input: uncaught-fault trigger with
`exitExceptions = true` (the default), and the dump's write fails.  The
deferred promise rejects before it resolves, so the `await this.dump(...)`
in `onUncaughtException` throws and neither `process.exit(1)` nor
`process.exitCode = 1` is reached, although the failure was logged. -/
theorem c5_counterexample :
    base.config.exitExceptions = true ∧
    (run base [.fault (.str "oops"), .complete false]).exited = none ∧
    (run base [.fault (.str "oops"), .complete false]).exitCode = none ∧
    (run base [.fault (.str "oops"), .complete false]).writeErrorsLogged = 1 :=
  ⟨rfl, rfl, rfl, rfl⟩

/-- Claim C8 refuted at a concrete input: a falsy fault value (`throw
null`) reaching `onUncaughtException`.  `parseError(null)` returns
`undefined` (the `if(!error)` branch), `JSON.stringify` drops the
`undefined`-valued key, and the written record has
`meta.reason = "uncaught-exception"` but no `meta.error` field — refuting
"present if and only if the dump reason is uncaught-exception". -/
theorem c8_counterexample :
    (run base [.fault .jsNull]).pendingWrites.map PendingWrite.doc = [encodeRecord recNullFault] ∧
    metaReasonOf (encodeRecord recNullFault) = some (.str "uncaught-exception") ∧
    metaErrorOf (encodeRecord recNullFault) = none :=
  ⟨rfl, rfl, rfl⟩

/-- Claim C10 refuted at a concrete input: `pFlaky` raises on its first
invocation only.  The first tick's dump raises, leaving `isDumping` stuck
true with no completion pending; but because the single-flight guard is
inert, the next tick's dump runs anyway, its write completes, and the
completion callback resets `isDumping` to false — after which an
uncaught-fault trigger takes the `!isDumping` branch again and dumps
(writes go from 1 to 2), contradicting "remains true for the rest of the
process lifetime" and "never taken again". -/
theorem c10_counterexample :
    (run fbase [.tick]).isDumping = true ∧
    (run fbase [.tick]).pendingWrites = [] ∧
    (run fbase [.tick, .tick]).writesIssued = 1 ∧
    (run fbase [.tick, .tick, .complete true]).isDumping = false ∧
    (run fbase [.tick, .tick, .complete true, .fault (.str "oops")]).writesIssued = 2 :=
  ⟨rfl, rfl, rfl, rfl, rfl⟩

/-- Claim C7: recovery never fails hard.  For every file condition the
`try/catch` around `require` yields a resolved promise; for a missing,
unreadable or malformed file the resolution value is the explicit absence
`undefined`. -/
theorem c7_recovery_never_fails (f : FileState) :
    (∃ v, recovery f = .ok v) ∧
    (f = .absent ∨ f = .unreadable ∨ f = .malformed → recovery f = .ok none) := by
  refine ⟨?_, ?_⟩
  · cases f <;> exact ⟨_, rfl⟩
  · rintro (rfl | rfl | rfl) <;> rfl

/-- Witness for C7 at the malformed-file input. -/
theorem c7_recovery_never_fails_witness : recovery .malformed = .ok none :=
  (c7_recovery_never_fails .malformed).2 (Or.inr (Or.inr rfl))

/-- Claim C9: recovery is a pure read.  It leaves the producer registry,
the coordinator flags and the configuration unchanged, and its result is
the same when invoked on the instance with no producers registered (so it
may run before any registration). -/
theorem c9_recovery_pure_read (s : Sys) :
    (recoverySys s).1.snapshotHandlers = s.snapshotHandlers ∧
    (recoverySys s).1.isDumping = s.isDumping ∧
    (recoverySys s).1.hasDumpedForShutdownAlready = s.hasDumpedForShutdownAlready ∧
    (recoverySys s).1.config = s.config ∧
    (recoverySys s).1 = s ∧
    (recoverySys { s with snapshotHandlers := [] }).2 = (recoverySys s).2 :=
  ⟨rfl, rfl, rfl, rfl, rfl, rfl⟩



/-- Claim C2: shutdown idempotence.  From any state where no shutdown dump
has happened and no dump is in flight, a shutdown signal issues exactly one
write, sets the `hasDumpedForShutdownAlready` latch before the dump starts,
and — because the latch is never cleared — every later shutdown signal, at
any point of any continuation (including while the dump's write is still in
flight), is an exact no-op.  So two or more shutdown signals in succession
produce exactly one dump and one write. -/
theorem c2_shutdown_idempotent (s : Sys) (st : Option Json) (c' : Nat)
    (hexit : s.exited = none)
    (hlatch : s.hasDumpedForShutdownAlready = false)
    (hinflight : s.isDumping = false)
    (hne : s.snapshotHandlers.isEmpty = false)
    (hsnap : snapshot s.snapshotHandlers s.calls .shutdown = (.ok st, c')) :
    (step s .sigShutdown).writesIssued = s.writesIssued + 1 ∧
    (step s .sigShutdown).hasDumpedForShutdownAlready = true ∧
    ∀ es : List Ev,
      step (run (step s .sigShutdown) es) .sigShutdown = run (step s .sigShutdown) es := by
  have hstep : step s .sigShutdown =
      (dump { s with hasDumpedForShutdownAlready := true } true false .shutdown .undef).1 :=
    (step_sig s hexit).trans (willShutdown_dumps s hlatch hinflight)
  have hd := dump_writes { s with hasDumpedForShutdownAlready := true }
    true false .shutdown .undef st c' hne hsnap
  refine ⟨?_, ?_, ?_⟩
  · rw [hstep, hd]
  · rw [hstep, hd]
  · intro es
    exact step_sig_noop _ (run_latch_mono es _ (by rw [hstep, hd]))

/-- Witness for C2 at a concrete instance: one constant producer, shutdown
signal, then a second shutdown signal after the write completed. -/
theorem c2_shutdown_idempotent_witness :
    (step base .sigShutdown).writesIssued = base.writesIssued + 1 ∧
    step (run (step base .sigShutdown) [.complete true]) .sigShutdown =
      run (step base .sigShutdown) [.complete true] := by
  have h := c2_shutdown_idempotent base (some (.obj [("foo", .str "bar")])) 1
    rfl rfl rfl rfl rfl
  exact ⟨h.1, h.2.2 [.complete true]⟩

/-- Claim C3: shape of the persisted state as a function of producer count.
With zero producers `dump` returns `false` and changes nothing (the file is
never written); with one producer the record's `state` is that producer's
result exactly; with two or more producers, each invoked sequentially in
registration order (the i-th at invocation counter `calls + i`), `state` is
the ordered array of their results, one slot per producer. -/
theorem c3_state_shape (s : Sys) (cb aw : Bool) (reason : Reason) (error : JsVal) :
    (s.snapshotHandlers = [] → dump s cb aw reason error = (s, .returnedFalse)) ∧
    (∀ p v, s.snapshotHandlers = [p] → p s.calls reason = .ok v →
      dump s cb aw reason error =
        ({ s with
            isDumping := true
            calls := s.calls + 1
            writesIssued := s.writesIssued + 1
            pendingWrites := s.pendingWrites ++
              [{ doc := encodeRecord
                   { meta := { «at» := s.now, reason := reason, error := jsToJson (parseError error) }
                     state := some v }
                 hasCb := cb
                 excAwaits := aw }] },
          .writeIssued)) ∧
    (∀ hs vs, s.snapshotHandlers = hs → 2 ≤ hs.length → vs.length = hs.length →
      (∀ i (hi : i < hs.length) (hi' : i < vs.length), hs[i] (s.calls + i) reason = .ok vs[i]) →
      dump s cb aw reason error =
        ({ s with
            isDumping := true
            calls := s.calls + hs.length
            writesIssued := s.writesIssued + 1
            pendingWrites := s.pendingWrites ++
              [{ doc := encodeRecord
                   { meta := { «at» := s.now, reason := reason, error := jsToJson (parseError error) }
                     state := some (.arr vs) }
                 hasCb := cb
                 excAwaits := aw }] },
          .writeIssued)) := by
  refine ⟨fun h => dump_nil s cb aw reason error (by rw [h]; rfl), ?_, ?_⟩
  · intro p v hp hok
    exact dump_writes s cb aw reason error (some v) (s.calls + 1)
      (by rw [hp]; rfl) (by rw [hp]; exact snapshot_single p s.calls reason v hok)
  · intro hs vs hhs hlen2 hlen hok
    match hs, hhs, hlen2, hlen, hok with
    | [], _, hlen2, _, _ => simp at hlen2
    | [p], _, hlen2, _, _ => simp at hlen2
    | a :: b :: t, hhs, _, hlen, hok =>
      have hrun := runAll_spec (a :: b :: t) vs s.calls reason hlen hok
      exact dump_writes s cb aw reason error (some (.arr vs)) (s.calls + (a :: b :: t).length)
        (by rw [hhs]; rfl)
        (by rw [hhs]; exact snapshot_multi a b t s.calls _ reason vs hrun)

/-- Witness for C3 at the spec's two-producer scenario: producers returning
`1` and `"x"` in registration order, shutdown dump, `state = [1, "x"]`. -/
theorem c3_state_shape_witness :
    dump base2 true false .shutdown .undef =
      ({ base2 with
          isDumping := true
          calls := base2.calls + 2
          writesIssued := base2.writesIssued + 1
          pendingWrites := base2.pendingWrites ++
            [{ doc := encodeRecord
                 { meta := { «at» := 1000, reason := .shutdown, error := none }
                   state := some (.arr [.num 1, .str "x"]) }
               hasCb := true
               excAwaits := false }] },
        .writeIssued) :=
  (c3_state_shape base2 true false .shutdown .undef).2.2 [pOne, pTwo] [.num 1, .str "x"]
    rfl (by simp) (by simp)
    (fun i hi hi' => by
      match i with
      | 0 => rfl
      | 1 => rfl
      | n + 2 => simp at hi)



theorem step_tick_isDumping (s : Sys) (hd : s.isDumping = true) :
    (step s .tick).isDumping = true := by
  unfold step
  split
  · exact hd
  · dsimp only
    split
    · split
      · exact dump_isDumping_mono s false false .autosave .undef hd
      · exact hd
    · exact hd

theorem step_sig_isDumping (s : Sys) (hd : s.isDumping = true) :
    (step s .sigShutdown).isDumping = true := by
  unfold step
  split
  · exact hd
  · dsimp only
    rw [willShutdown_noop s (Or.inr hd)]
    exact hd

theorem step_fault_isDumping (s : Sys) (err : JsVal) (hd : s.isDumping = true) :
    (step s (.fault err)).isDumping = true := by
  unfold step
  split
  · exact hd
  · dsimp only
    split
    · rw [onUncaughtException_inflight s err hd]
      exact ((applyExitPolicy_frame _).2.2.2.1).trans hd
    · exact hd

theorem step_complete_nil_isDumping (s : Sys) (ok : Bool) (hd : s.isDumping = true)
    (hp : s.pendingWrites = []) : (step s (.complete ok)).isDumping = true := by
  unfold step
  split
  · exact hd
  · dsimp only
    rw [completeWrite_nil s ok hp]
    exact hd

/-- Claim C4, corrected.  When a registered producer raises during a
shutdown-triggered dump: the fault propagates out of the aggregation and
out of `dump` uncaught; the coordinator neither catches nor logs it, does
not retry, and issues no write (the step changes only the latch, the stuck
`isDumping` flag and the invocation counter); and on every continuation of
the run the exit-hook completion callback is never invoked — the code does
NOT "still allow the host process to terminate". -/
theorem c4_producer_fault_no_callback (s : Sys) (e : JsVal) (c' : Nat)
    (hexit : s.exited = none)
    (hlatch : s.hasDumpedForShutdownAlready = false)
    (hinflight : s.isDumping = false)
    (hne : s.snapshotHandlers.isEmpty = false)
    (hsnap : snapshot s.snapshotHandlers s.calls .shutdown = (.error e, c'))
    (hcb : ∀ w ∈ s.pendingWrites, w.hasCb = false) :
    step s .sigShutdown =
      { s with hasDumpedForShutdownAlready := true, isDumping := true, calls := c' } ∧
    ∀ es : List Ev, (run (step s .sigShutdown) es).shutdownCbRuns = s.shutdownCbRuns := by
  have hstep : step s .sigShutdown =
      (dump { s with hasDumpedForShutdownAlready := true } true false .shutdown .undef).1 :=
    (step_sig s hexit).trans (willShutdown_dumps s hlatch hinflight)
  have hd := dump_threw { s with hasDumpedForShutdownAlready := true }
    true false .shutdown .undef e c' hne hsnap
  have h1 : step s .sigShutdown =
      { s with hasDumpedForShutdownAlready := true, isDumping := true, calls := c' } := by
    rw [hstep, hd]
  refine ⟨h1, fun es => ?_⟩
  have h := run_inv es (step s .sigShutdown) (by rw [h1]) (by rw [h1]; exact hcb)
  exact h.2.2.trans (by rw [h1])

/-- Witness for C4: the always-raising producer, shutdown signal, then a
tick, a write completion and a repeated signal — the completion callback
count stays zero. -/
theorem c4_producer_fault_no_callback_witness :
    (run (step bbase .sigShutdown) [.tick, .complete true, .sigShutdown]).shutdownCbRuns =
      bbase.shutdownCbRuns :=
  (c4_producer_fault_no_callback bbase (.str "boom") 1 rfl rfl rfl rfl rfl
    (fun w hw => absurd hw (List.not_mem_nil w))).2 [.tick, .complete true, .sigShutdown]

/-- Claim C10, corrected.  `isDumping` is indeed reset only by a write
completion (any step that turns it off is a `complete` event with a write
pending), and a dump whose producer raises leaves it set without scheduling
a completion; while it is set, an uncaught-fault trigger skips its dump
(no write, no producer invocation).  But the flag does NOT necessarily
remain true for the rest of the process lifetime: because the inert
single-flight guard lets a later dump run anyway, a subsequent successful
dump's completion callback resets the flag to false (see the
counterexample). -/
theorem c10_isDumping_latch (s : Sys) :
    (∀ e, s.isDumping = true → (step s e).isDumping = false →
        ∃ ok, e = .complete ok ∧ s.pendingWrites ≠ []) ∧
    (∀ cb aw r err e c', s.snapshotHandlers.isEmpty = false →
        snapshot s.snapshotHandlers s.calls r = (.error e, c') →
        (dump s cb aw r err).1.isDumping = true ∧
        (dump s cb aw r err).1.pendingWrites = s.pendingWrites ∧
        (dump s cb aw r err).1.writesIssued = s.writesIssued) ∧
    (∀ err, s.isDumping = true → s.exited = none → s.config.catchExceptions = true →
        (step s (.fault err)).writesIssued = s.writesIssued ∧
        (step s (.fault err)).calls = s.calls ∧
        (step s (.fault err)).pendingWrites = s.pendingWrites) := by
  refine ⟨?_, ?_, ?_⟩
  · intro e hd hfalse
    cases e with
    | tick => exact Bool.noConfusion ((step_tick_isDumping s hd).symm.trans hfalse)
    | sigShutdown => exact Bool.noConfusion ((step_sig_isDumping s hd).symm.trans hfalse)
    | fault err => exact Bool.noConfusion ((step_fault_isDumping s err hd).symm.trans hfalse)
    | complete ok =>
      refine ⟨ok, rfl, fun hp => ?_⟩
      exact Bool.noConfusion ((step_complete_nil_isDumping s ok hd hp).symm.trans hfalse)
  · intro cb aw r err e c' hne hsnap
    rw [dump_threw s cb aw r err e c' hne hsnap]
    exact ⟨rfl, rfl, rfl⟩
  · intro err hd hexit hcatch
    rw [step_fault s err hexit hcatch, onUncaughtException_inflight s err hd]
    obtain ⟨_, _, c3, _, c5, c6, _⟩ :=
      applyExitPolicy_frame { s with faultsLogged := s.faultsLogged + 1 }
    exact ⟨c5, c6, c3⟩

/-- Witness for C10: at the state with one dump in flight, a successful
write completion is exactly the step that resets the flag. -/
theorem c10_isDumping_latch_witness :
    ∃ ok, Ev.complete true = Ev.complete ok ∧ (step base .tick).pendingWrites ≠ [] :=
  (c10_isDumping_latch (step base .tick)).1 (.complete true) rfl rfl



/-- Claim C8, corrected.  For the uncaught-exception trigger the written
record's `meta.error` is exactly the `JSON.stringify` image of
`parseError(err)` — present iff the fault value is truthy (so a falsy
thrown value yields a record with reason `uncaught-exception` and no
`meta.error`); shutdown- and autosave-triggered dumps (which pass no error)
never carry `meta.error`.  When present, its content follows `parseError`:
a value with `toJSON` is serialized via its `toJSON` result; an `Error`
instance has every own property copied onto a plain object; any other
truthy value is stored as-is. -/
theorem c8_meta_error (s : Sys) (err : JsVal) (st : Option Json) (c' : Nat)
    (hexit : s.exited = none)
    (hlatch : s.hasDumpedForShutdownAlready = false)
    (hinflight : s.isDumping = false)
    (hcatch : s.config.catchExceptions = true)
    (hne : s.snapshotHandlers.isEmpty = false)
    (hsnap : snapshot s.snapshotHandlers s.calls .uncaughtException = (.ok st, c')) :
    ((step s (.fault err)).pendingWrites.map PendingWrite.doc =
       s.pendingWrites.map PendingWrite.doc ++
         [encodeRecord
           { meta := { «at» := s.now
                       reason := .uncaughtException
                       error := jsToJson (parseError err) }
             state := st }]) ∧
    (truthy err = true → (jsToJson (parseError err)).isSome = true) ∧
    (truthy err = false → jsToJson (parseError err) = none) ∧
    (∀ cb aw reason, ∀ w ∈ (dump s cb aw reason .undef).1.pendingWrites,
       w ∈ s.pendingWrites ∨ metaErrorOf w.doc = none) ∧
    (onAutosave s = (dump s false false .autosave .undef).1) ∧
    (willShutdown s =
      (dump { s with hasDumpedForShutdownAlready := true } true false .shutdown .undef).1) ∧
    (∀ props tj b, parseError (.obj props (some tj) b) = .obj tj none false) ∧
    (∀ props, parseError (.obj props none true) = .obj props none false) ∧
    (truthy err = true → hasToJson err = false → isErrorInstance err = false →
      parseError err = err) := by
  refine ⟨?_, ?_, ?_, ?_, rfl, willShutdown_dumps s hlatch hinflight, fun props tj b => rfl,
    fun props => rfl, ?_⟩
  · rw [step_fault s err hexit hcatch, onUncaughtException_dumps s err hinflight,
      dump_writes { s with faultsLogged := s.faultsLogged + 1, hasDumpedForShutdownAlready := true }
        false true .uncaughtException err st c' hne hsnap]
    simp
  · intro h
    cases err with
    | undef => simp [truthy] at h
    | jsNull => simp [truthy] at h
    | bool b => simp [parseError, h, jsToJson]
    | num n => simp [parseError, h, jsToJson]
    | str v => simp [parseError, h, jsToJson]
    | obj props tj b => cases tj <;> cases b <;> simp [parseError, truthy, jsToJson]
  · intro h
    simp [parseError, h, jsToJson]
  · intro cb2 aw2 reason2 w hw
    rcases dump_new_doc s cb2 aw2 reason2 .undef w hw with h | ⟨st2, hdoc⟩
    · exact Or.inl h
    · right
      rw [hdoc, metaErrorOf_encode]
      rfl
  · intro ht htj hie
    cases err with
    | undef => simp [truthy] at ht
    | jsNull => simp [truthy] at ht
    | bool b => simp [parseError, ht]
    | num n => simp [parseError, ht]
    | str v => simp [parseError, ht]
    | obj props tj b =>
      cases tj with
      | some tj2 => simp [hasToJson] at htj
      | none =>
        cases b with
        | true => simp [isErrorInstance] at hie
        | false => rfl

/-- Witness for C8: the Error-like fault `errObj` at the constant-producer
instance; the written record carries the copied own properties, and
`parseError` copies them onto a plain object. -/
theorem c8_meta_error_witness :
    (step base (.fault errObj)).pendingWrites.map PendingWrite.doc =
      base.pendingWrites.map PendingWrite.doc ++
        [encodeRecord
          { meta := { «at» := 1000
                      reason := .uncaughtException
                      error := some (.obj [("message", .str "oops"), ("stack", .str "Error: oops")]) }
            state := some (.obj [("foo", .str "bar")]) }] ∧
    parseError errObj = .obj [("message", .str "oops"), ("stack", .str "Error: oops")] none false := by
  have h := c8_meta_error base errObj (some (.obj [("foo", .str "bar")])) 1 rfl rfl rfl rfl rfl rfl
  exact ⟨h.1, h.2.2.2.2.2.2.2.1 [("message", .str "oops"), ("stack", .str "Error: oops")]⟩


/-- Claim C5, corrected.  When a dump's `fs.writeFile` fails: the failure
is logged, `isDumping` is cleared, the file is left unchanged, and for a
shutdown trigger the exit-hook completion callback is still invoked (the
callback runs on both outcomes).  But the dump's deferred promise REJECTS
before it resolves, so for an uncaught-exception trigger the
`await this.dump(...)` throws and the configured termination policy is NOT
applied — neither `process.exit(1)` nor `process.exitCode = 1` happens. -/
theorem c5_write_fault (s : Sys) (err : JsVal) (stE stS : Option Json) (cE cS : Nat)
    (hexit : s.exited = none)
    (hlatch : s.hasDumpedForShutdownAlready = false)
    (hinflight : s.isDumping = false)
    (hcatch : s.config.catchExceptions = true)
    (hne : s.snapshotHandlers.isEmpty = false)
    (hpend : s.pendingWrites = [])
    (hsnapE : snapshot s.snapshotHandlers s.calls .uncaughtException = (.ok stE, cE))
    (hsnapS : snapshot s.snapshotHandlers s.calls .shutdown = (.ok stS, cS)) :
    ((run s [.fault err, .complete false]).writeErrorsLogged = s.writeErrorsLogged + 1 ∧
     (run s [.fault err, .complete false]).isDumping = false ∧
     (run s [.fault err, .complete false]).file = s.file ∧
     (run s [.fault err, .complete false]).exited = s.exited ∧
     (run s [.fault err, .complete false]).exitCode = s.exitCode) ∧
    ((run s [.sigShutdown, .complete false]).shutdownCbRuns = s.shutdownCbRuns + 1 ∧
     (run s [.sigShutdown, .complete false]).writeErrorsLogged = s.writeErrorsLogged + 1 ∧
     (run s [.sigShutdown, .complete false]).file = s.file) := by
  have hstep1 : step s (.fault err) =
      { s with
          faultsLogged := s.faultsLogged + 1
          hasDumpedForShutdownAlready := true
          isDumping := true
          calls := cE
          writesIssued := s.writesIssued + 1
          pendingWrites := s.pendingWrites ++
            [{ doc := encodeRecord
                 { meta := { «at» := s.now
                             reason := .uncaughtException
                             error := jsToJson (parseError err) }
                   state := stE }
               hasCb := false
               excAwaits := true }] } := by
    rw [step_fault s err hexit hcatch, onUncaughtException_dumps s err hinflight,
      dump_writes { s with faultsLogged := s.faultsLogged + 1, hasDumpedForShutdownAlready := true }
        false true .uncaughtException err stE cE hne hsnapE]
    rfl
  have hstep2 : step s .sigShutdown =
      { s with
          hasDumpedForShutdownAlready := true
          isDumping := true
          calls := cS
          writesIssued := s.writesIssued + 1
          pendingWrites := s.pendingWrites ++
            [{ doc := encodeRecord
                 { meta := { «at» := s.now
                             reason := .shutdown
                             error := jsToJson (parseError .undef) }
                   state := stS }
               hasCb := true
               excAwaits := false }] } := by
    rw [(step_sig s hexit).trans (willShutdown_dumps s hlatch hinflight),
      dump_writes { s with hasDumpedForShutdownAlready := true }
        true false .shutdown .undef stS cS hne hsnapS]
  constructor
  · have hrunE : run s [.fault err, .complete false] =
        completeWrite (step s (.fault err)) false := by
      show step (step s (.fault err)) (.complete false) = _
      rw [step_complete _ false (by rw [hstep1]; exact hexit)]
    rw [hrunE, completeWrite_cons (step s (.fault err)) false
      { doc := encodeRecord
          { meta := { «at» := s.now
                      reason := .uncaughtException
                      error := jsToJson (parseError err) }
            state := stE }
        hasCb := false
        excAwaits := true } [] (by rw [hstep1]; simp [hpend]), hstep1]
    exact ⟨rfl, rfl, rfl, rfl, rfl⟩
  · have hrunS : run s [.sigShutdown, .complete false] =
        completeWrite (step s .sigShutdown) false := by
      show step (step s .sigShutdown) (.complete false) = _
      rw [step_complete _ false (by rw [hstep2]; exact hexit)]
    rw [hrunS, completeWrite_cons (step s .sigShutdown) false
      { doc := encodeRecord
          { meta := { «at» := s.now
                      reason := .shutdown
                      error := jsToJson (parseError .undef) }
            state := stS }
        hasCb := true
        excAwaits := false } [] (by rw [hstep2]; simp [hpend]), hstep2]
    exact ⟨rfl, rfl, rfl⟩

/-- Witness for C5 at the constant-producer instance with the default
configuration (`exitExceptions = true`). -/
theorem c5_write_fault_witness :
    (run base [.fault (.str "oops"), .complete false]).exited = base.exited ∧
    (run base [.fault (.str "oops"), .complete false]).exitCode = base.exitCode ∧
    (run base [.sigShutdown, .complete false]).shutdownCbRuns = base.shutdownCbRuns + 1 := by
  have h := c5_write_fault base (.str "oops") (some (.obj [("foo", .str "bar")]))
    (some (.obj [("foo", .str "bar")])) 1 1 rfl rfl rfl rfl rfl rfl rfl rfl
  exact ⟨h.1.2.2.2.1, h.1.2.2.2.2, h.2.1⟩

/-- Claim C6: round-trip.  The dump serializes exactly the constructed
record; after the write completes the file holds that serialized document;
recovery resolves with that document; and reading it field-for-field
(`meta.at`, `meta.reason`, `meta.error`, `state`) yields the record that
was written, for any JSON-representable state payload. -/
theorem c6_roundtrip (s : Sys) (cb aw : Bool) (reason : Reason) (error : JsVal)
    (st : Option Json) (c' : Nat)
    (hne : s.snapshotHandlers.isEmpty = false)
    (hsnap : snapshot s.snapshotHandlers s.calls reason = (.ok st, c'))
    (hpend : s.pendingWrites = []) :
    (completeWrite (dump s cb aw reason error).1 true).file =
      .content (encodeRecord
        { meta := { «at» := s.now, reason := reason, error := jsToJson (parseError error) }
          state := st }) ∧
    recovery (completeWrite (dump s cb aw reason error).1 true).file =
      .ok (some (encodeRecord
        { meta := { «at» := s.now, reason := reason, error := jsToJson (parseError error) }
          state := st })) ∧
    decodeRecord (encodeRecord
        { meta := { «at» := s.now, reason := reason, error := jsToJson (parseError error) }
          state := st }) =
      some { meta := { «at» := s.now, reason := reason, error := jsToJson (parseError error) }
             state := st } := by
  have hd := dump_writes s cb aw reason error st c' hne hsnap
  have hfile : (completeWrite (dump s cb aw reason error).1 true).file =
      .content (encodeRecord
        { meta := { «at» := s.now, reason := reason, error := jsToJson (parseError error) }
          state := st }) := by
    rw [hd, completeWrite_cons _ true
      { doc := encodeRecord
          { meta := { «at» := s.now, reason := reason, error := jsToJson (parseError error) }
            state := st }
        hasCb := cb
        excAwaits := aw } [] (by simp [hpend])]
    exact ((exitIf_frame _ _).2.2.2.2.2.2.1).trans rfl
  refine ⟨hfile, ?_, decode_encode _⟩
  rw [hfile]
  rfl

/-- Witness for C6 at the constant-producer instance: an autosave dump of
the object with field `foo = "bar"` at timestamp 1000 decodes back to
itself. -/
theorem c6_roundtrip_witness :
    decodeRecord (encodeRecord
      { meta := { «at» := 1000, reason := .autosave, error := none }
        state := some (.obj [("foo", .str "bar")]) }) =
    some { meta := { «at» := 1000, reason := .autosave, error := none }
           state := some (.obj [("foo", .str "bar")]) } ∧
    (completeWrite (dump base false false .autosave .undef).1 true).file =
      .content (encodeRecord
        { meta := { «at» := 1000, reason := .autosave, error := none }
          state := some (.obj [("foo", .str "bar")]) }) := by
  have h := c6_roundtrip base false false .autosave .undef
    (some (.obj [("foo", .str "bar")])) 1 rfl rfl rfl
  exact ⟨h.2.2, h.1⟩


end GracefulRecovery
